import Mathlib

/-!
Verification of the CORA-GO tool registry, executor, relay and pairing
subsystem, shallowly embedded from the Python sources
(`anchor/tools/__init__.py`, `anchor/relay.py`, `anchor/pairing.py`,
`cora_go.py`).

Python JSON-ish values are modelled by `PyVal`; raising an exception is
modelled by `Except String`; HTTP side effects are modelled as traces of
`Request` values describing each call the code would issue, in order.
-/

namespace CoraGo

/-- A Python/JSON value as passed between the tools, the relay and the
pairing manager: `None`, booleans, integers, strings, lists and
string-keyed dicts (association lists preserving insertion order). -/
inductive PyVal where
  | none : PyVal
  | bool : Bool → PyVal
  | int  : Int → PyVal
  | str  : String → PyVal
  | list : List PyVal → PyVal
  | dict : List (String × PyVal) → PyVal

mutual

/-- Python `==` on `PyVal` (structural equality). -/
def PyVal.beq : PyVal → PyVal → Bool
  | .none, .none => true
  | .bool a, .bool b => a == b
  | .int a, .int b => a == b
  | .str a, .str b => a == b
  | .list xs, .list ys => PyVal.beqList xs ys
  | .dict xs, .dict ys => PyVal.beqDict xs ys
  | _, _ => false

/-- Elementwise `PyVal.beq` on lists. -/
def PyVal.beqList : List PyVal → List PyVal → Bool
  | [], [] => true
  | x :: xs, y :: ys => PyVal.beq x y && PyVal.beqList xs ys
  | _, _ => false

/-- Elementwise `PyVal.beq` on dict entries. -/
def PyVal.beqDict : List (String × PyVal) → List (String × PyVal) → Bool
  | [], [] => true
  | (k, v) :: xs, (l, w) :: ys => k == l && PyVal.beq v w && PyVal.beqDict xs ys
  | _, _ => false

end

/-- Python truthiness (`bool(v)`): `None`/`False`/`0`/empty containers are
falsy, everything else truthy. -/
def pyTruthy : PyVal → Bool
  | .none => false
  | .bool b => b
  | .int n => n != 0
  | .str s => !s.isEmpty
  | .list xs => !xs.isEmpty
  | .dict kvs => !kvs.isEmpty

/-- `d.get(k, default)` on a Python dict modelled as an association list:
the first binding of `k`, else the default. -/
def pyGet (kvs : List (String × PyVal)) (k : String) (dflt : PyVal) : PyVal :=
  match kvs.find? (fun p => p.1 = k) with
  | some p => p.2
  | Option.none => dflt

/-- `k in d` for a Python dict: key membership. -/
def pyHasKey (kvs : List (String × PyVal)) (k : String) : Bool :=
  kvs.any (fun p => p.1 = k)

/-- `d[k] = v` on a Python dict (generic value type): overwrite in place if
the key exists (Python dicts keep the original insertion position), else
append. -/
def dictSet {α : Type} (kvs : List (String × α)) (k : String) (v : α) :
    List (String × α) :=
  if kvs.any (fun p => p.1 = k) then
    kvs.map (fun p => if p.1 = k then (k, v) else p)
  else
    kvs ++ [(k, v)]

mutual

/-- Python `repr` of a value (strings in single quotes, containers
rendered recursively), as used by `str`/f-strings on containers. -/
def pyRepr : PyVal → String
  | .none => "None"
  | .bool b => if b then "True" else "False"
  | .int n => toString n
  | .str s => "\x27" ++ s ++ "\x27"
  | .list xs => "[" ++ pyReprList xs ++ "]"
  | .dict kvs => "\x7b" ++ pyReprDict kvs ++ "\x7d"

/-- Comma-joined `repr` of list elements. -/
def pyReprList : List PyVal → String
  | [] => ""
  | [x] => pyRepr x
  | x :: y :: xs => pyRepr x ++ ", " ++ pyReprList (y :: xs)

/-- Comma-joined `repr` of dict entries. -/
def pyReprDict : List (String × PyVal) → String
  | [] => ""
  | [(k, v)] => "\x27" ++ k ++ "\x27: " ++ pyRepr v
  | (k, v) :: e :: kvs =>
    "\x27" ++ k ++ "\x27: " ++ pyRepr v ++ ", " ++ pyReprDict (e :: kvs)

end

/-- Python `str(v)` as used by f-string interpolation: identity on strings,
`repr`-style otherwise. -/
def pyStr : PyVal → String
  | .str s => s
  | v => pyRepr v

/-- The Python type name of a value, for `TypeError` messages. -/
def pyTypeName : PyVal → String
  | .none => "NoneType"
  | .bool _ => "bool"
  | .int _ => "int"
  | .str _ => "str"
  | .list _ => "list"
  | .dict _ => "dict"

/-- Whether `pat` is a prefix of `hay` (on character lists). -/
def charIsPrefix : List Char → List Char → Bool
  | [], _ => true
  | _ :: _, [] => false
  | p :: ps, h :: hs => p == h && charIsPrefix ps hs

/-- Python `hay.find(pat)` (on character lists): index of the first
occurrence of `pat` in `hay`, or `none`. The empty pattern matches at 0. -/
def charFind : List Char → List Char → Option Nat
  | hay, pat =>
    if charIsPrefix pat hay then some 0
    else
      match hay with
      | [] => Option.none
      | _ :: rest => (charFind rest pat).map (· + 1)

/-- Python `sub in s` on strings: substring containment. -/
def strContainsSub (s sub : String) : Bool :=
  (charFind s.data sub.data).isSome

/-- Python `x in container`: key membership for dicts, element equality for
lists, substring for strings; iterating a scalar raises `TypeError`. -/
def pyContains (x : PyVal) : PyVal → Except String Bool
  | .dict kvs =>
    match x with
    | .str k => .ok (pyHasKey kvs k)
    | _ => .ok false
  | .list xs => .ok (xs.any (fun y => PyVal.beq x y))
  | .str s =>
    match x with
    | .str sub => .ok (strContainsSub s sub)
    | v => .error ("TypeError: \x27in <string>\x27 requires string as left operand, not "
        ++ pyTypeName v)
  | v => .error ("TypeError: argument of type \x27" ++ pyTypeName v
      ++ "\x27 is not iterable")

/-! ## Tool registry and executor (`anchor/tools/__init__.py`) -/

/-- One `_TOOLS` registry entry, as built by `register_tool`. -/
structure Tool where
  name : String
  description : String
  parameters : PyVal
  /-- Models the Python call `func(**args)` of the handler: given the raw
  argument value it returns the handler's result, or raises
  (`Except.error`) — covering faults from the handler body and from the
  keyword expansion of `args` alike (non-mapping `args`, unexpected or
  missing keyword arguments). -/
  func : PyVal → Except String PyVal

/-- The `_TOOLS` registry: a string-keyed dict of tool entries. -/
def Registry := List (String × Tool)

/-- `register_tool`: inserts or overwrites the entry for `name`. -/
def register_tool (reg : Registry) (name description : String)
    (parameters : PyVal) (func : PyVal → Except String PyVal) : Registry :=
  dictSet reg name ⟨name, description, parameters, func⟩

/-- Python hashability of a `PyVal`: scalars (`None`, bools, ints,
strings) are hashable and can be looked up in a dict; lists and dicts are
unhashable and make `dict.get` raise `TypeError`. -/
def pyHashable : PyVal → Bool
  | .none | .bool _ | .int _ | .str _ => true
  | .list _ | .dict _ => false

/-- `get_tool`: `_TOOLS.get(name)`. A string name looks the key up; a
hashable non-string name (e.g. `None`) hits no key and yields `None`; an
unhashable name (list/dict) makes `dict.get` raise
`TypeError: unhashable type`, modelled as `Except.error` — in
`execute_tool` this lookup runs before the `try` block, so that raise
propagates to the caller. -/
def get_tool (reg : Registry) (name : PyVal) : Except String (Option Tool) :=
  match name with
  | .str s => .ok ((reg.find? (fun p => p.1 = s)).map (fun p => p.2))
  | .list _ => .error "TypeError: unhashable type: \x27list\x27"
  | .dict _ => .error "TypeError: unhashable type: \x27dict\x27"
  | _ => .ok Option.none

/-- `list_tools`: all registered tool names, in registration order. -/
def list_tools (reg : Registry) : List String :=
  reg.map (fun p => p.1)

/-- `get_openai_tools`: the registry in OpenAI function-calling shape. -/
def get_openai_tools (reg : Registry) : List PyVal :=
  reg.map (fun p =>
    .dict [("type", .str "function"),
           ("function", .dict [("name", .str p.2.name),
                               ("description", .str p.2.description),
                               ("parameters", p.2.parameters)])])

/-- `execute_tool(name, args)`: the registry lookup `_TOOLS.get(name)`
runs first, outside the `try` block — its `TypeError` on an unhashable
name propagates. A missing name yields the unknown-tool error dict; a
registered handler is called inside `try/except`, any raise being reduced
to `{"error": str(e)}`. The `Except` result type records whether the
function itself raises to its caller. -/
def execute_tool (reg : Registry) (name : PyVal) (args : PyVal) :
    Except String PyVal :=
  match get_tool reg name with
  | .error e => .error e
  | .ok Option.none => .ok (.dict [("error", .str ("Unknown tool: " ++ pyStr name))])
  | .ok (some tool) =>
    match tool.func args with
    | .ok v => .ok v
    | .error e => .ok (.dict [("error", .str e)])

/-! ## Relay (`anchor/relay.py`)

HTTP side effects are modelled as traces: each relay operation returns the
list of REST requests it issues, in order. -/

/-- One REST request issued against the Supabase backend. -/
structure Request where
  endpoint : String
  method : String
  data : Option PyVal

/-- Hardcoded fallback Supabase URL (`relay.py`). -/
def SUPABASE_URL : String := "https://bugpycickribmdfprryq.supabase.co"

/-- Hardcoded fallback Supabase key (`relay.py`). -/
def SUPABASE_KEY : String := "sb_publishable_c9Q2joJ8g7g7ntdrzbnzbA_RJfa_5jt"

/-- The mutable state of a `Relay` instance: credentials, device id, the
`running` flag, and the number of poll-loop threads spawned so far (each
`threading.Thread(target=self.poll_loop).start()` adds one; a spawned
thread only exits after observing `running = False`). -/
structure RelayState where
  url : String
  key : String
  device_id : String
  running : Bool
  threads : Nat
deriving DecidableEq

namespace Relay

/-- `is_configured`: `bool(self.url and self.key)` — both strings
nonempty. -/
def is_configured (s : RelayState) : Bool :=
  !s.url.isEmpty && !s.key.isEmpty

/-- The request trace of `_request`: issues exactly one REST call when
configured; when unconfigured it returns an error dict without issuing
anything. -/
def request (s : RelayState) (endpoint method : String) (data : Option PyVal) :
    List Request :=
  if is_configured s then [⟨endpoint, method, data⟩] else []

/-- `heartbeat`: upserts the status row
`{"id": device_id, "online": True, "last_seen": now+"Z",
"system_info": {**system_info(), "active_tools": list_tools()}}`.
`now` stands for `datetime.utcnow().isoformat()` and `si` for the
`system_info()` snapshot. -/
def heartbeat (reg : Registry) (s : RelayState) (now : String)
    (si : List (String × PyVal)) : List Request :=
  let status : PyVal := .dict
    [("id", .str s.device_id),
     ("online", .bool true),
     ("last_seen", .str (now ++ "Z")),
     ("system_info",
        .dict (dictSet si "active_tools"
          (.list ((list_tools reg).map (fun n => .str n)))))]
  request s "cora_status?on_conflict=id" "POST" (some status)

/-- The fetch request of `get_pending_commands`. -/
def get_pending_commands_request (s : RelayState) : List Request :=
  request s "cora_commands?status=eq.pending&order=created_at.asc&limit=5" "GET"
    Option.none

/-- `get_pending_commands` applied to the fetch response: a list response
is returned as-is, anything else (e.g. an error dict) becomes `[]`. -/
def get_pending_commands (result : PyVal) : List PyVal :=
  match result with
  | .list xs => xs
  | _ => []

/-- `execute_command(cmd)`: patch the row to `running`, run the tool
executor on the command's name and params, then patch the row to
`done`/`error` (`"done" if "error" not in result else "error"`) together
with the result payload and a completion timestamp. The value is the
ordered trace of the REST calls issued; `Except.error` would mean an
uncaught Python exception. -/
def execute_command (reg : Registry) (s : RelayState) (now : String)
    (cmd : List (String × PyVal)) : Except String (List Request) :=
  let cmd_id := pyGet cmd "id" .none
  let tool_name := pyGet cmd "command" .none
  let params := pyGet cmd "params" (.dict [])
  let runPatch := request s ("cora_commands?id=eq." ++ pyStr cmd_id) "PATCH"
    (some (.dict [("status", .str "running")]))
  match execute_tool reg tool_name params with
  | .error e => .error e
  | .ok result =>
    match pyContains (.str "error") result with
    | .error e => .error e
    | .ok hasErr =>
      let donePatch := request s ("cora_commands?id=eq." ++ pyStr cmd_id) "PATCH"
        (some (.dict [("status", .str (if hasErr then "error" else "done")),
                      ("result", result),
                      ("completed_at", .str (now ++ "Z"))]))
      .ok (runPatch ++ donePatch)

/-- `start`: refuses (returning `False`, state untouched) when not
configured; otherwise sets `running := True`, spawns a fresh poll-loop
thread and returns `True`. There is no already-running guard in the
source. -/
def start (s : RelayState) : RelayState × Bool :=
  if !is_configured s then (s, false)
  else ({ s with running := true, threads := s.threads + 1 }, true)

/-- `stop`: clears the `running` flag and joins the thread; it issues no
REST request (second component is the request trace). -/
def stop (s : RelayState) : RelayState × List Request :=
  ({ s with running := false }, [])

end Relay

/-! ## Pairing (`anchor/pairing.py`) -/

/-- One persisted `cora_pairing` row. `expires_at` is a timestamp
(seconds); `claimed_at`/`claimed_by` are the raw JSON values (`null`
until a claim). -/
structure PairRow where
  code : String
  anchor_id : String
  anchor_name : String
  expires_at : Nat
  claimed_at : PyVal
  claimed_by : PyVal

/-- The remote `cora_pairing` table. -/
def PairStore := List PairRow

namespace Pairing

/-- The GET request issued by `check_pairing_status(code)`: a read with
`select=claimed_at,claimed_by,anchor_id,anchor_name` and no body. -/
def check_pairing_status_request (code : String) : Request :=
  ⟨"cora_pairing?code=eq." ++ code
      ++ "&select=claimed_at,claimed_by,anchor_id,anchor_name",
   "GET", Option.none⟩

/-- The response rows to that request: the rows whose `code` matches, each
projected to the four selected columns (note `expires_at` is not among
them). -/
def fetch_pairing (store : PairStore) (code : String) :
    List (List (String × PyVal)) :=
  (store.filter (fun r => r.code == code)).map (fun r =>
    [("claimed_at", r.claimed_at),
     ("claimed_by", r.claimed_by),
     ("anchor_id", .str r.anchor_id),
     ("anchor_name", .str r.anchor_name)])

/-- `check_pairing_status` applied to the fetch outcome: a raised network
fault becomes `{"error": str(e)}`; otherwise the first row (if any) is
classified — truthy `claimed_at` → `claimed` (with
`row.get("claimed_by", "Mobile")` as device name), empty response →
`expired`, else `pending`. -/
def check_pairing_status
    (resp : Except String (List (List (String × PyVal)))) :
    List (String × PyVal) :=
  match resp with
  | .error e => [("error", .str e)]
  | .ok data =>
    match data with
    | [] => [("status", .str "expired")]
    | row :: _ =>
      if pyTruthy (pyGet row "claimed_at" .none) then
        [("status", .str "claimed"),
         ("device_name", pyGet row "claimed_by" (.str "Mobile")),
         ("anchor_id", pyGet row "anchor_id" .none),
         ("anchor_name", pyGet row "anchor_name" .none)]
      else
        [("status", .str "pending")]

/-- The poll loop body of `start_pairing_poll`, run over successive
observations of the remote store (`Except.error` = a transient network
fault on that poll). Returns the list of `callback` invocations (in
order, with their argument) and the number of `check_pairing_status`
calls made: the loop breaks after a `claimed` or `expired` status,
invoking the callback once, and otherwise sleeps and polls again. -/
def run_pairing_poll (code : String) :
    List (Except String PairStore) → List (List (String × PyVal)) × Nat
  | [] => ([], 0)
  | st :: rest =>
    let status := check_pairing_status (st.map (fun store => fetch_pairing store code))
    if PyVal.beq (pyGet status "status" .none) (.str "claimed") then
      ([status], 1)
    else if PyVal.beq (pyGet status "status" .none) (.str "expired") then
      ([[("error", .str "Pairing code expired")]], 1)
    else
      let r := run_pairing_poll code rest
      (r.1, r.2 + 1)

/-- Whether one observation of the store is terminal for `code` in the
sense the loop actually detects: the row is absent (classified
`expired`), or its `claimed_at` is truthy (classified `claimed`). A
transient fault is not terminal. -/
def observed_terminal (st : Except String PairStore) (code : String) : Bool :=
  match st with
  | .error _ => false
  | .ok store =>
    match store.filter (fun r => r.code == code) with
    | [] => true
    | r :: _ => pyTruthy r.claimed_at

/-- The callback argument the loop passes on a terminal observation. -/
def terminal_callback (st : Except String PairStore) (code : String) :
    List (String × PyVal) :=
  let status := check_pairing_status (st.map (fun store => fetch_pairing store code))
  if PyVal.beq (pyGet status "status" .none) (.str "claimed") then status
  else [("error", .str "Pairing code expired")]

/-- Modelled from the spec (claim wording): the terminal condition the
claim asserts the poll loop reacts to — `claimed_at` set, or the expiry
threshold (`expires_at`) reached at time `now`. -/
def spec_terminal_condition (store : PairStore) (code : String) (now : Nat) :
    Bool :=
  match store.filter (fun r => r.code == code) with
  | [] => true
  | r :: _ => pyTruthy r.claimed_at || decide (r.expires_at ≤ now)

end Pairing

/-! ## Command router (`cora_go.py`, `detect_tool_intent`) -/

/-- Python whitespace (as recognised by `str.split`/`str.strip`). -/
def isPyWS (c : Char) : Bool :=
  c == ' ' || c == '\t' || c == '\n' || c == '\r' || c == '\x0b' || c == '\x0c'

/-- `message.lower()` (ASCII inputs), on character lists. -/
def pyLower (s : List Char) : List Char := s.map Char.toLower

/-- `s.split(maxsplit=1)` on character lists: leading whitespace dropped,
first whitespace-run-delimited word, then the remainder with its leading
whitespace dropped. -/
def pySplit1 (s : List Char) : List (List Char) :=
  let s1 := s.dropWhile isPyWS
  if s1.isEmpty then []
  else
    let w := s1.takeWhile (fun c => !isPyWS c)
    let rest := (s1.dropWhile (fun c => !isPyWS c)).dropWhile isPyWS
    if rest.isEmpty then [w] else [w, rest]

/-- `s.strip()` on character lists. -/
def pyStrip (s : List Char) : List Char :=
  ((s.dropWhile isPyWS).reverse.dropWhile isPyWS).reverse

/-- The keys of the `TOOLS` dispatch dict in `cora_go.py`. -/
def TOOLS_keys : List String :=
  ["read_file", "write_file", "list_files", "search_files", "run_shell",
   "system_info", "screenshot", "web_search", "fetch_url", "weather",
   "add_note", "get_note", "list_notes", "search_notes", "ollama",
   "pollinations", "list_models", "start_sentinel", "stop_sentinel",
   "sentinel_status", "incidents", "list_bots", "launch_bot", "stop_bot",
   "running_bots", "speak", "tts_info"]

/-- The `tool_hints` table of `detect_tool_intent`, in declaration
order. -/
def tool_hints : List (String × List String) :=
  [("read_file", ["read file", "show file", "open file", "cat "]),
   ("write_file", ["write to", "save to", "create file"]),
   ("list_files", ["list files", "show files", "ls ", "dir "]),
   ("search_files", ["find files", "search files", "locate"]),
   ("run_shell", ["run command", "execute", "shell ", "bash "]),
   ("screenshot", ["screenshot", "capture screen"]),
   ("web_search", ["search for", "look up", "google", "find online"]),
   ("fetch_url", ["fetch url", "get page", "download page"]),
   ("weather", ["weather in", "weather for", "what\x27s the weather"]),
   ("add_note", ["save note", "remember", "add note"]),
   ("get_note", ["get note", "recall", "what was"]),
   ("list_notes", ["list notes", "show notes", "my notes"]),
   ("search_notes", ["search notes", "find note"]),
   ("start_sentinel", ["start sentinel", "begin monitoring", "listen"]),
   ("stop_sentinel", ["stop sentinel", "stop monitoring", "stop listening"]),
   ("sentinel_status", ["sentinel status", "monitoring status"]),
   ("incidents", ["show incidents", "what happened", "audio incidents"]),
   ("list_bots", ["list bots", "available bots", "show bots"]),
   ("launch_bot", ["launch", "start bot", "run bot"]),
   ("stop_bot", ["stop bot", "kill bot", "terminate"]),
   ("running_bots", ["running bots", "active bots"]),
   ("speak", ["say ", "speak ", "tell me"]),
   ("list_models", ["list models", "available models", "ollama models"])]

/-- The inner hint loop: for the first hint found in the lowered message,
extract `message[idx + len(hint):].strip()` (sliced from the original
message) as the argument. -/
def scanHintList (message ml : List Char) : List String → Option String
  | [] => Option.none
  | hint :: rest =>
    match charFind ml hint.data with
    | some idx => some (String.mk (pyStrip (message.drop (idx + hint.data.length))))
    | Option.none => scanHintList message ml rest

/-- The outer loop over `tool_hints`: first table entry with a matching
hint wins. -/
def scanTools (message ml : List Char) :
    List (String × List String) → Option (String × String)
  | [] => Option.none
  | (tool, hints) :: rest =>
    match scanHintList message ml hints with
    | some arg => some (tool, arg)
    | Option.none => scanTools message ml rest

/-- `detect_tool_intent(message)`: a `/`-prefixed message naming a key of
`TOOLS` resolves directly (argument = remainder of the first whitespace
split); otherwise the `tool_hints` table is scanned in order; no match
returns `None` (the caller then falls back to the AI-query path). A bare
`"/"`-ish message with nothing after the slash raises `IndexError`
(`parts[0]` on an empty split). -/
def detect_tool_intent (message : String) :
    Except String (Option (String × String)) :=
  let ml := pyLower message.data
  if charIsPrefix ['/'] ml then
    match pySplit1 (message.data.drop 1) with
    | [] => .error "IndexError: list index out of range"
    | t :: restParts =>
      let tool_name := String.mk t
      let args := match restParts with
        | a :: _ => String.mk a
        | [] => ""
      if TOOLS_keys.contains tool_name then .ok (some (tool_name, args))
      else .ok (scanTools message.data ml tool_hints)
  else .ok (scanTools message.data ml tool_hints)

/-! ## Theorems -/

/-- A sample registry used to instantiate the executor theorems: one
`speak`-like tool whose handler succeeds on a dict argument carrying a
`"text"` key and raises otherwise (modelling keyword expansion / missing
argument faults), and one tool whose handler always raises. -/
def sampleRegistry : Registry :=
  register_tool
    (register_tool [] "speak" "Speak text aloud"
      (.dict [("type", .str "object")])
      (fun args =>
        match args with
        | .dict kvs =>
          if pyHasKey kvs "text" then
            .ok (.dict [("success", .bool true), ("spoken", pyGet kvs "text" .none)])
          else
            .error "speak() missing 1 required positional argument: \x27text\x27"
        | v => .error ("argument of type \x27" ++ pyTypeName v
            ++ "\x27 is not a mapping")))
    "boom" "Always raises" (.dict [("type", .str "object")])
    (fun _ => .error "boom")

/-- C1: for a registered tool name and any argument value, `execute_tool`
never raises to its caller: it returns the handler's result when the
handler returns, and `{"error": str(e)}` when the handler (or the keyword
expansion of the arguments) raises. -/
theorem execute_tool_registered_never_raises
    (reg : Registry) (n args : PyVal) (t : Tool)
    (h : get_tool reg n = .ok (some t)) :
    (∀ v, t.func args = .ok v → execute_tool reg n args = .ok v) ∧
    (∀ e, t.func args = .error e →
      execute_tool reg n args = .ok (.dict [("error", .str e)])) ∧
    (∃ v, execute_tool reg n args = .ok v) := by
  refine ⟨?_, ?_, ?_⟩
  · intro v hv
    simp [execute_tool, h, hv]
  · intro e he
    simp [execute_tool, h, he]
  · cases hf : t.func args with
    | ok v => exact ⟨v, by simp [execute_tool, h, hf]⟩
    | error e => exact ⟨.dict [("error", .str e)], by simp [execute_tool, h, hf]⟩

/-- Witness for C1: in the sample registry, the registered tool `boom`
(whose handler raises "boom") executes to `{"error": "boom"}` rather than
raising. -/
theorem execute_tool_registered_never_raises_witness :
    execute_tool sampleRegistry (.str "boom") (.dict []) =
      .ok (.dict [("error", .str "boom")]) := by
  have h := execute_tool_registered_never_raises sampleRegistry (.str "boom")
    (.dict [])
    ⟨"boom", "Always raises", .dict [("type", .str "object")], fun _ => .error "boom"⟩
    rfl
  exact h.2.1 "boom" rfl

/-- Counterexample for C9: `execute_tool` is not total over arbitrary
name values — with an unhashable name such as the empty list, the
registry lookup `_TOOLS.get(name)` raises `TypeError` before the `try`
block is entered, and that exception propagates to the caller. -/
theorem execute_tool_unhashable_name_counterexample :
    execute_tool sampleRegistry (.list []) (.dict []) =
      .error "TypeError: unhashable type: \x27list\x27" := rfl

/-- C9 amended: `execute_tool` is total over every hashable tool name (in
particular every string name) and arbitrary argument values — including
arguments that cannot be keyword-expanded at all (e.g. `None`) or
mappings whose keys mismatch the handler's signature — because the
keyword expansion and the handler invocation both occur inside the
exception guard; only the registry lookup on an unhashable name raises
before that guard. -/
theorem execute_tool_total_hashable (reg : Registry) (n args : PyVal)
    (h : pyHashable n = true) :
    ∃ v, execute_tool reg n args = .ok v := by
  cases n with
  | list xs => simp [pyHashable] at h
  | dict kvs => simp [pyHashable] at h
  | str s =>
    unfold execute_tool get_tool
    cases hg : (reg.find? (fun p => p.1 = s)).map (fun p => p.2) with
    | none =>
      exact ⟨.dict [("error", .str ("Unknown tool: " ++ pyStr (.str s)))],
        by simp [hg]⟩
    | some t =>
      cases hf : t.func args with
      | ok v => exact ⟨v, by simp [hg, hf]⟩
      | error e => exact ⟨.dict [("error", .str e)], by simp [hg, hf]⟩
  | none => exact ⟨_, rfl⟩
  | bool b => exact ⟨_, rfl⟩
  | int m => exact ⟨_, rfl⟩

/-- Witness for the amended C9: even the non-string (but hashable) name
`None` with an empty argument mapping returns a value rather than
raising. -/
theorem execute_tool_total_hashable_witness :
    ∃ v, execute_tool sampleRegistry PyVal.none (.dict []) = .ok v :=
  execute_tool_total_hashable sampleRegistry PyVal.none (.dict []) rfl

/-- C5: an unregistered name yields exactly
`{"error": "Unknown tool: <name>"}`. -/
theorem execute_tool_unknown_name (reg : Registry) (n : String) (args : PyVal)
    (h : get_tool reg (.str n) = .ok Option.none) :
    execute_tool reg (.str n) args =
      .ok (.dict [("error", .str ("Unknown tool: " ++ n))]) := by
  simp [execute_tool, h, pyStr]

/-- Witness for C5: against the sample registry (where it is not
registered), `execute_tool("nonexistent_tool_xyz", {})` returns exactly
`{"error": "Unknown tool: nonexistent_tool_xyz"}`. -/
theorem execute_tool_unknown_name_witness :
    execute_tool sampleRegistry (.str "nonexistent_tool_xyz") (.dict []) =
      .ok (.dict [("error", .str "Unknown tool: nonexistent_tool_xyz")]) :=
  execute_tool_unknown_name sampleRegistry "nonexistent_tool_xyz" (.dict []) rfl

/-- C8: the command router resolves `"say hello there"` to `speak` with
trailing argument `"hello there"`, resolves `"/system_info"` to
`system_info` with empty arguments, and returns no tool match (the
AI-query fallback) for input matching neither the slash convention nor
any keyword-table entry. -/
theorem detect_tool_intent_examples :
    detect_tool_intent "say hello there" = .ok (some ("speak", "hello there")) ∧
    detect_tool_intent "/system_info" = .ok (some ("system_info", "")) ∧
    detect_tool_intent "how are you" = .ok Option.none := by
  refine ⟨?_, ?_, ?_⟩ <;> rfl

/-- C2: for every command whose execution yields a dict result, a
configured relay's `execute_command` issues exactly two PATCH requests in
order: first setting the command's status to `running`, then — after
invoking the tool executor on the command's name and params — the
terminal update carrying status `done` when the result has no `"error"`
key and `error` otherwise, together with the result payload and the
completion timestamp, and it raises nothing. -/
theorem execute_command_lifecycle (reg : Registry) (s : RelayState)
    (now : String) (cmd : List (String × PyVal)) (kvs : List (String × PyVal))
    (hconf : Relay.is_configured s = true)
    (hexec : execute_tool reg (pyGet cmd "command" .none)
      (pyGet cmd "params" (.dict [])) = .ok (.dict kvs)) :
    Relay.execute_command reg s now cmd = .ok
      [⟨"cora_commands?id=eq." ++ pyStr (pyGet cmd "id" .none), "PATCH",
          some (.dict [("status", .str "running")])⟩,
       ⟨"cora_commands?id=eq." ++ pyStr (pyGet cmd "id" .none), "PATCH",
          some (.dict
            [("status", .str (if pyHasKey kvs "error" then "error" else "done")),
             ("result", .dict kvs),
             ("completed_at", .str (now ++ "Z"))])⟩] := by
  simp [Relay.execute_command, Relay.request, hconf, hexec, pyContains,
    Except.bind]

/-- Witness for C2: an `echo` command against a one-tool registry — the
relay patches `running`, then patches `done` with the echoed payload and
timestamp. -/
theorem execute_command_lifecycle_witness :
    Relay.execute_command
      (register_tool [] "echo" "Echo arguments" (.dict [("type", .str "object")])
        (fun a => .ok (.dict [("echoed", a)])))
      ⟨SUPABASE_URL, SUPABASE_KEY, "anchor", true, 1⟩ "2025-01-01T00:00:00"
      [("id", .int 7), ("command", .str "echo"),
       ("params", .dict [("text", .str "hi")])] = .ok
      [⟨"cora_commands?id=eq.7", "PATCH",
          some (.dict [("status", .str "running")])⟩,
       ⟨"cora_commands?id=eq.7", "PATCH",
          some (.dict
            [("status", .str "done"),
             ("result", .dict [("echoed", .dict [("text", .str "hi")])]),
             ("completed_at", .str "2025-01-01T00:00:00Z")])⟩] := by
  have h := execute_command_lifecycle
    (register_tool [] "echo" "Echo arguments" (.dict [("type", .str "object")])
      (fun a => .ok (.dict [("echoed", a)])))
    ⟨SUPABASE_URL, SUPABASE_KEY, "anchor", true, 1⟩ "2025-01-01T00:00:00"
    [("id", .int 7), ("command", .str "echo"),
     ("params", .dict [("text", .str "hi")])]
    [("echoed", .dict [("text", .str "hi")])] rfl rfl
  exact h

/-- Counterexample for C3: a configured relay that is already `running`
with one live poll-loop thread; calling `start()` again is not a no-op —
it spawns a second poll-loop thread (and reports success), so the state
changes. -/
theorem start_not_noop_counterexample :
    (⟨SUPABASE_URL, SUPABASE_KEY, "anchor", true, 1⟩ : RelayState).running = true ∧
    Relay.start ⟨SUPABASE_URL, SUPABASE_KEY, "anchor", true, 1⟩ ≠
      (⟨SUPABASE_URL, SUPABASE_KEY, "anchor", true, 1⟩, true) ∧
    (Relay.start ⟨SUPABASE_URL, SUPABASE_KEY, "anchor", true, 1⟩).1.threads = 2 := by
  refine ⟨rfl, ?_, by decide⟩
  intro h
  have := congrArg (fun p => p.1.threads) h
  revert this
  decide

/-- C3 amended: `start()` on a configured relay is not idempotent — even
when already running it sets `running` again and spawns one additional
poll-loop thread, returning `True`. -/
theorem start_spawns_thread_each_call (s : RelayState)
    (hconf : Relay.is_configured s = true) :
    (Relay.start s).1.running = true ∧
    (Relay.start s).1.threads = s.threads + 1 ∧
    (Relay.start s).2 = true := by
  simp [Relay.start, hconf]

/-- Witness for the amended C3: starting an already-running configured
relay leaves it running, brings the thread count from 1 to 2 and returns
`True`. -/
theorem start_spawns_thread_each_call_witness :
    (Relay.start ⟨SUPABASE_URL, SUPABASE_KEY, "anchor", true, 1⟩).1.running = true ∧
    (Relay.start ⟨SUPABASE_URL, SUPABASE_KEY, "anchor", true, 1⟩).1.threads = 2 ∧
    (Relay.start ⟨SUPABASE_URL, SUPABASE_KEY, "anchor", true, 1⟩).2 = true :=
  start_spawns_thread_each_call ⟨SUPABASE_URL, SUPABASE_KEY, "anchor", true, 1⟩ rfl

/-- C7: an unconfigured relay refuses to start — `start()` returns `False`
and leaves the state (in particular the poll-loop thread count and the
`running` flag) untouched. -/
theorem start_refuses_unconfigured (s : RelayState)
    (hconf : Relay.is_configured s = false) :
    Relay.start s = (s, false) := by
  simp [Relay.start, hconf]

/-- Witness for C7: a relay with empty URL and key does not start. -/
theorem start_refuses_unconfigured_witness :
    Relay.start ⟨"", "", "anchor", false, 0⟩ = (⟨"", "", "anchor", false, 0⟩, false) :=
  start_refuses_unconfigured ⟨"", "", "anchor", false, 0⟩ rfl

/-- C10: every status record the relay's heartbeat writes carries
`online = True`, and `stop()` publishes nothing — its request trace is
empty (it only clears the `running` flag), so no relay operation ever
writes `online = False`. -/
theorem relay_writes_online_true_only :
    (∀ (reg : Registry) (s : RelayState) (now : String)
        (si : List (String × PyVal)) (r : Request),
      r ∈ Relay.heartbeat reg s now si →
      ∃ d, r.data = some (.dict d) ∧ pyGet d "online" .none = .bool true) ∧
    (∀ s : RelayState, (Relay.stop s).2 = [] ∧ (Relay.stop s).1.running = false) := by
  constructor
  · intro reg s now si r hr
    by_cases hc : Relay.is_configured s = true
    · simp [Relay.heartbeat, Relay.request, hc] at hr
      subst hr
      exact ⟨_, rfl, rfl⟩
    · simp [Relay.heartbeat, Relay.request, hc] at hr
  · intro s
    exact ⟨rfl, rfl⟩

/-- Witness for C10: the single heartbeat request of a configured relay
carries `online = True`, and `stop` issues no request. -/
theorem relay_writes_online_true_only_witness :
    (∃ r, r ∈ Relay.heartbeat sampleRegistry
        ⟨SUPABASE_URL, SUPABASE_KEY, "anchor", true, 1⟩ "2025-01-01T00:00:00"
        [("platform", .str "linux")] ∧
      ∃ d, r.data = some (.dict d) ∧ pyGet d "online" .none = .bool true) ∧
    (Relay.stop ⟨SUPABASE_URL, SUPABASE_KEY, "anchor", true, 1⟩).2 = [] := by
  have htr : Relay.heartbeat sampleRegistry
      ⟨SUPABASE_URL, SUPABASE_KEY, "anchor", true, 1⟩ "2025-01-01T00:00:00"
      [("platform", .str "linux")] =
      [⟨"cora_status?on_conflict=id", "POST", some (.dict
        [("id", .str "anchor"), ("online", .bool true),
         ("last_seen", .str "2025-01-01T00:00:00Z"),
         ("system_info", .dict [("platform", .str "linux"),
            ("active_tools", .list [.str "speak", .str "boom"])])])⟩] := rfl
  have hmem : (⟨"cora_status?on_conflict=id", "POST", some (.dict
      [("id", .str "anchor"), ("online", .bool true),
       ("last_seen", .str "2025-01-01T00:00:00Z"),
       ("system_info", .dict [("platform", .str "linux"),
          ("active_tools", .list [.str "speak", .str "boom"])])])⟩ : Request) ∈
      Relay.heartbeat sampleRegistry
        ⟨SUPABASE_URL, SUPABASE_KEY, "anchor", true, 1⟩ "2025-01-01T00:00:00"
        [("platform", .str "linux")] := by
    rw [htr]
    exact List.mem_singleton.mpr rfl
  exact ⟨⟨_, hmem, relay_writes_online_true_only.1 sampleRegistry
      ⟨SUPABASE_URL, SUPABASE_KEY, "anchor", true, 1⟩ "2025-01-01T00:00:00"
      [("platform", .str "linux")] _ hmem⟩,
    (relay_writes_online_true_only.2
      ⟨SUPABASE_URL, SUPABASE_KEY, "anchor", true, 1⟩).1⟩

/-- C6: `check_pairing_status` classifies the fetched row without mutating
it — truthy `claimed_at` → `claimed` (carrying the claimer identity),
no row → `expired`, otherwise `pending`; and the one request it issues is
a body-less GET. -/
theorem check_pairing_status_classification (store : PairStore) (code : String) :
    (store.filter (fun r => r.code == code) = [] →
      Pairing.check_pairing_status (.ok (Pairing.fetch_pairing store code)) =
        [("status", .str "expired")]) ∧
    (∀ r rs, store.filter (fun r => r.code == code) = r :: rs →
      (pyTruthy r.claimed_at = true →
        Pairing.check_pairing_status (.ok (Pairing.fetch_pairing store code)) =
          [("status", .str "claimed"), ("device_name", r.claimed_by),
           ("anchor_id", .str r.anchor_id), ("anchor_name", .str r.anchor_name)]) ∧
      (pyTruthy r.claimed_at = false →
        Pairing.check_pairing_status (.ok (Pairing.fetch_pairing store code)) =
          [("status", .str "pending")])) ∧
    (Pairing.check_pairing_status_request code).method = "GET" ∧
    (Pairing.check_pairing_status_request code).data = Option.none := by
  refine ⟨?_, ?_, rfl, rfl⟩
  · intro h
    simp [Pairing.check_pairing_status, Pairing.fetch_pairing, h]
  · intro r rs h
    have hget : pyGet [("claimed_at", r.claimed_at), ("claimed_by", r.claimed_by),
        ("anchor_id", PyVal.str r.anchor_id), ("anchor_name", PyVal.str r.anchor_name)]
        "claimed_at" .none = r.claimed_at := rfl
    constructor
    · intro ht
      simp [Pairing.check_pairing_status, Pairing.fetch_pairing, h, hget, ht]
      exact ⟨rfl, rfl, rfl⟩
    · intro ht
      simp [Pairing.check_pairing_status, Pairing.fetch_pairing, h, hget, ht]

/-- A pairing row for `"CORA-TEST"` already claimed by a mobile device. -/
def claimedStore : PairStore :=
  [⟨"CORA-TEST", "anchor-1", "PC Anchor", 1000,
    .str "2025-01-01T00:00:10Z", .str "Pixel"⟩]

/-- Witness for C6: a claimed row polls as `claimed` with the claimer
identity, and the status check's request is a body-less GET. -/
theorem check_pairing_status_classification_witness :
    Pairing.check_pairing_status (.ok (Pairing.fetch_pairing claimedStore "CORA-TEST")) =
      [("status", .str "claimed"), ("device_name", .str "Pixel"),
       ("anchor_id", .str "anchor-1"), ("anchor_name", .str "PC Anchor")] ∧
    (Pairing.check_pairing_status_request "CORA-TEST").method = "GET" := by
  have h := check_pairing_status_classification claimedStore "CORA-TEST"
  exact ⟨(h.2.1 ⟨"CORA-TEST", "anchor-1", "PC Anchor", 1000,
      .str "2025-01-01T00:00:10Z", .str "Pixel"⟩ [] rfl).1 rfl, h.2.2.1⟩

/-- An unclaimed `cora_pairing` row for `"CORA-AAAA"` whose expiry
timestamp (0) is already in the past. -/
def staleRowStore : PairStore :=
  [⟨"CORA-AAAA", "anchor-1", "PC Anchor", 0, PyVal.none, PyVal.none⟩]

/-- Counterexample for C4: at time 100 the claim's terminal condition
holds for `"CORA-AAAA"` (its `expires_at = 0` threshold is long past),
yet the poll loop, observing that store twice, polls twice and never
invokes the callback — it does not stop at the expiry threshold, because
`check_pairing_status` never selects `expires_at` and reports a present
unclaimed row as `pending`. -/
theorem pairing_poll_ignores_expiry_counterexample :
    Pairing.spec_terminal_condition staleRowStore "CORA-AAAA" 100 = true ∧
    Pairing.run_pairing_poll "CORA-AAAA"
      [.ok staleRowStore, .ok staleRowStore] = ([], 2) :=
  ⟨rfl, rfl⟩

/-- The loop body stops with one callback on a terminal observation (row
absent, or `claimed_at` truthy). -/
theorem run_poll_cons_terminal (st : Except String PairStore)
    (rest : List (Except String PairStore)) (code : String)
    (h : Pairing.observed_terminal st code = true) :
    Pairing.run_pairing_poll code (st :: rest) =
      ([Pairing.terminal_callback st code], 1) := by
  cases st with
  | error e => simp [Pairing.observed_terminal] at h
  | ok store =>
    cases hf : store.filter (fun r => r.code == code) with
    | nil =>
      simp [Pairing.run_pairing_poll, Pairing.check_pairing_status,
        Pairing.fetch_pairing, Pairing.terminal_callback, Except.map, hf]
      rfl
    | cons r rs =>
      have ht : pyTruthy r.claimed_at = true := by
        simpa [Pairing.observed_terminal, hf] using h
      have hget : pyGet [("claimed_at", r.claimed_at), ("claimed_by", r.claimed_by),
          ("anchor_id", PyVal.str r.anchor_id), ("anchor_name", PyVal.str r.anchor_name)]
          "claimed_at" .none = r.claimed_at := rfl
      simp [Pairing.run_pairing_poll, Pairing.check_pairing_status,
        Pairing.fetch_pairing, Pairing.terminal_callback, Except.map, hf, hget, ht]
      rfl

/-- The loop body continues (polling once more) on a non-terminal
observation: a present unclaimed row, or a transient fault. -/
theorem run_poll_cons_not_terminal (st : Except String PairStore)
    (rest : List (Except String PairStore)) (code : String)
    (h : Pairing.observed_terminal st code = false) :
    Pairing.run_pairing_poll code (st :: rest) =
      ((Pairing.run_pairing_poll code rest).1,
       (Pairing.run_pairing_poll code rest).2 + 1) := by
  cases st with
  | error e =>
    simp [Pairing.run_pairing_poll, Pairing.check_pairing_status, Except.map]
    rfl
  | ok store =>
    cases hf : store.filter (fun r => r.code == code) with
    | nil => simp [Pairing.observed_terminal, hf] at h
    | cons r rs =>
      have ht : pyTruthy r.claimed_at = false := by
        simpa [Pairing.observed_terminal, hf] using h
      have hget : pyGet [("claimed_at", r.claimed_at), ("claimed_by", r.claimed_by),
          ("anchor_id", PyVal.str r.anchor_id), ("anchor_name", PyVal.str r.anchor_name)]
          "claimed_at" .none = r.claimed_at := rfl
      simp [Pairing.run_pairing_poll, Pairing.check_pairing_status,
        Pairing.fetch_pairing, Except.map, hf, hget, ht]
      rfl

/-- C4 amended: the pairing poll loop stops immediately, invoking the
callback exactly once, upon the first observation whose row is absent
(reported `expired`) or whose `claimed_at` is truthy (reported
`claimed`); transient faults and present unclaimed rows — even past
their `expires_at`, which the loop never reads — keep it polling. -/
theorem pairing_poll_stops_on_claimed_or_absent (code : String)
    (pre post : List (Except String PairStore)) (st : Except String PairStore)
    (hpre : ∀ x ∈ pre, Pairing.observed_terminal x code = false)
    (hst : Pairing.observed_terminal st code = true) :
    Pairing.run_pairing_poll code (pre ++ st :: post) =
      ([Pairing.terminal_callback st code], pre.length + 1) := by
  induction pre with
  | nil => simpa using run_poll_cons_terminal st post code hst
  | cons x xs ih =>
    have hx : Pairing.observed_terminal x code = false :=
      hpre x (List.mem_cons_self x xs)
    rw [List.cons_append, run_poll_cons_not_terminal x (xs ++ st :: post) code hx,
      ih (fun y hy => hpre y (List.mem_cons_of_mem x hy))]
    simp [Nat.add_comm]

/-- Witness for the amended C4: one pending observation of an unclaimed
row, then an observation with the row gone — the loop stops after the
second poll with exactly one callback, reporting the expiry. -/
theorem pairing_poll_stops_on_claimed_or_absent_witness :
    Pairing.run_pairing_poll "CORA-TEST"
      [.ok [⟨"CORA-TEST", "anchor-1", "PC Anchor", 1000, PyVal.none, PyVal.none⟩],
       .ok []] =
      ([[("error", .str "Pairing code expired")]], 2) := by
  have h := pairing_poll_stops_on_claimed_or_absent "CORA-TEST"
    [.ok [⟨"CORA-TEST", "anchor-1", "PC Anchor", 1000, PyVal.none, PyVal.none⟩]]
    [] (.ok [])
    (by
      intro x hx
      rw [List.mem_singleton.mp hx]
      rfl)
    rfl
  simpa using h

end CoraGo
